import Mathlib

/-!
Verification development for the GIS file-converter scripts
(`fileconverter.py` and `test.py`): a shallow embedding of the
geometry-extraction logic, followed by theorems settling the
specification's claims about it.

Coordinates are modelled as rationals (the scripts use Python floats only
as opaque data: no arithmetic is performed on coordinates apart from the
circle-buffer call delegated to the geometry library).  Fallible Python
attribute accesses and library calls are modelled with `Except`/`Option`.
-/

namespace GIS

/-- A 2D coordinate pair, as consumed by the shapely geometry constructors. -/
abbrev Coord := Rat × Rat

/-- Shallow embedding of the shapely geometry values the scripts build:
`Point`, `LineString` and `Polygon`.  A `LineString` or `Polygon` carries the
vertex sequence it was constructed from; `polygon []` stands for an empty
polygon (as returned by a degenerate buffer call). -/
inductive Geom where
  | point : Rat → Rat → Geom
  | lineString : List Coord → Geom
  | polygon : List Coord → Geom
deriving DecidableEq, Repr

/-- Embedding of shapely emptiness (`geom.is_empty`): a point is never empty,
a line string or polygon is empty exactly when it has no vertices. -/
def Geom.isEmpty : Geom → Bool
  | .point _ _ => false
  | .lineString ps => ps.isEmpty
  | .polygon ps => ps.isEmpty

/-!  ### The tabular (CSV) path: `process_csv` in `fileconverter.py`

A pandas data frame is modelled by its column-label list, a map from column
label to the (numeric) cells of that column, and the parsed cells of a
pre-built `geometry` column when one exists.  Only the fields `process_csv`
reads are modelled. -/

/-- Embedding of the pandas data frame handed to `process_csv`. -/
structure DataFrame where
  columns : List String
  col : String → List Rat
  geomCol : List Geom

/-- The geometry list built by
`[Point(xy) for xy in zip(df['longitude'], df['latitude'])]`. -/
def lonlatPoints (df : DataFrame) : List Geom :=
  ((df.col "longitude").zip (df.col "latitude")).map fun xy => .point xy.1 xy.2

/-- The geometry list built by `[Point(xy) for xy in zip(df['x'], df['y'])]`. -/
def xyPoints (df : DataFrame) : List Geom :=
  ((df.col "x").zip (df.col "y")).map fun xy => .point xy.1 xy.2

/-- The `ValueError` message raised when no recognized column set exists. -/
def csvSchemaErrorMsg : String :=
  "CSV must contain latitude and longitude, x and y, or geometry columns."

/-- Embedding of `process_csv` (`fileconverter.py`, lines 30-59): choose the
geometry source by checking the column sets `latitude`/`longitude`, then
`x`/`y`, then `geometry`, in that order; raise a `ValueError` (modelled as
`.error`) when none is present.  The returned value is the geometry column of
the resulting GeoDataFrame; the data-frame attributes are carried through
unchanged by the script and are not re-modelled here. -/
def process_csv (df : DataFrame) : Except String (List Geom) :=
  if "latitude" ∈ df.columns ∧ "longitude" ∈ df.columns then
    .ok (lonlatPoints df)
  else if "x" ∈ df.columns ∧ "y" ∈ df.columns then
    .ok (xyPoints df)
  else if "geometry" ∈ df.columns then
    .ok df.geomCol
  else
    .error csvSchemaErrorMsg

/-!  ### The drawing (DXF/DWG) path: `process_cad` in `fileconverter.py`

An ezdxf model-space entity is modelled by its `dxftype()` string, its layer
name, and the DXF attribute accesses `process_cad` performs.  Each access is
an `Except String` value: `.error` models the access (or the library call it
feeds) raising, which the per-entity guard in `process_cad` catches.  The
remaining native DXF fields exposed by `entity.dxf.all_existing_dxf_attribs()`
are carried, already rendered through `str`, in `extraAttribs`. -/

instance {α β : Type} [DecidableEq α] [DecidableEq β] : DecidableEq (Except α β) := fun x y =>
  match x, y with
  | .error a, .error b =>
    if h : a = b then isTrue (by subst h; rfl) else isFalse (fun hc => by cases hc; exact h rfl)
  | .error _, .ok _ => isFalse (fun hc => by cases hc)
  | .ok _, .error _ => isFalse (fun hc => by cases hc)
  | .ok a, .ok b =>
    if h : a = b then isTrue (by subst h; rfl) else isFalse (fun hc => by cases hc; exact h rfl)

/-- Embedding of an ezdxf model-space entity as read by `process_cad`. -/
structure DxfEntity where
  dxftype : String
  layer : String
  location : Except String Coord
  startP : Except String Coord
  endP : Except String Coord
  points : Except String (List Coord)
  center : Except String Coord
  radius : Except String Rat
  extraAttribs : List (String × String)
deriving DecidableEq, Repr

/-- Embedding of `entity.dxf.all_existing_dxf_attribs()` with each value
rendered through `str`: the DXF format requires the layer field (group
code 8) on every graphical entity, so `layer` is always among the existing
attributes; the rest of the entity's native fields follow. -/
def allExistingDxfAttribs (e : DxfEntity) : List (String × String) :=
  ("layer", e.layer) :: e.extraAttribs

/-- Modelled behavior of the external geometry library: the approximation
ring `Point(c).buffer(r)` produces for a positive radius `r`.  Its exact
vertex placement is library-internal; what the scripts rely on is that it is
a ring of at least three distinct vertices around the center. -/
def circleRing (c : Coord) (r : Rat) : List Coord :=
  [(c.1 + r, c.2), (c.1, c.2 + r), (c.1 - r, c.2), (c.1, c.2 - r)]

/-- Modelled behavior of the external geometry library call
`Point(center).buffer(radius)`: a positive radius yields a polygon
approximating the circle; a non-positive radius yields an empty polygon. -/
def buffer (c : Coord) (r : Rat) : Geom :=
  if 0 < r then .polygon (circleRing c r) else .polygon []

/-- Embedding of the per-entity dispatch in `process_cad`
(`fileconverter.py`, lines 77-93): `.error` models the entity's conversion
raising, `.ok none` the variable `geom` still being `None` after the
dispatch (unsupported entity kind, or a polyline with fewer than two
vertices), and `.ok (some g)` a built geometry. -/
def convertEntity (e : DxfEntity) : Except String (Option Geom) :=
  if e.dxftype = "POINT" then do
    let l ← e.location
    pure (some (.point l.1 l.2))
  else if e.dxftype = "LINE" then do
    let s ← e.startP
    let t ← e.endP
    pure (some (.lineString [s, t]))
  else if e.dxftype = "LWPOLYLINE" ∨ e.dxftype = "POLYLINE" then do
    let ps ← e.points
    if ps.length > 2 then pure (some (.polygon ps))
    else if ps.length = 2 then pure (some (.lineString ps))
    else pure none
  else if e.dxftype = "CIRCLE" then do
    let c ← e.center
    let r ← e.radius
    pure (some (buffer c r))
  else
    pure none

/-- One (geometry, properties) record accumulated by `process_cad`. -/
structure Record where
  geometry : Geom
  properties : List (String × String)
deriving DecidableEq, Repr

/-- The debug line `process_cad` emits when an entity's conversion raises. -/
def entityWarning (e : DxfEntity) (msg : String) : String :=
  "Error processing entity " ++ e.dxftype ++ ": " ++ msg

/-- One iteration of the entity loop of `process_cad` (lines 75-100): a
conversion that raises is caught, logged and skipped; the Python truthiness
guard `if geom:` drops both a `None` geometry and an empty one; otherwise the
record is appended with `dxftype` followed by every existing DXF attribute
as its properties. -/
def stepEntity (acc : List Record × List String) (e : DxfEntity) :
    List Record × List String :=
  match convertEntity e with
  | .error msg => (acc.1, acc.2 ++ [entityWarning e msg])
  | .ok none => acc
  | .ok (some g) =>
    if g.isEmpty then acc
    else (acc.1 ++ [⟨g, ("dxftype", e.dxftype) :: allExistingDxfAttribs e⟩], acc.2)

/-- The entity loop of `process_cad`: fold `stepEntity` over the model space
in input order, accumulating records and warnings. -/
def processEntities (es : List DxfEntity) : List Record × List String :=
  es.foldl stepEntity ([], [])

/-- The two whole-request failures `process_cad` can raise: the structural
parse error (`ezdxf.DXFStructureError`, surviving the recovery attempt) and
the `ValueError` for an entity list that produced no geometry. -/
inductive CadError where
  | structureError
  | noGeometries
deriving DecidableEq, Repr

/-- Embedding of a DXF byte stream by the outcomes of the two parses that
can be attempted on it: `strictParse` models `ezdxf.readfile` (with `none`
for a raised `DXFStructureError`) and `recoverParse` models
`recover.readfile` (with `none` for recovery itself raising). -/
structure DxfFile where
  strictParse : Option (List DxfEntity)
  recoverParse : Option (List DxfEntity)
deriving DecidableEq, Repr

/-- Embedding of the parse stage of `process_cad` (lines 64-70): try the
strict parse; on a structural error attempt the lenient recovery parse once.
Returns the parsed entity list (or `none` when both parses failed) together
with the number of recovery attempts made. -/
def readDoc (f : DxfFile) : Option (List DxfEntity) × Nat :=
  match f.strictParse with
  | some es => (some es, 0)
  | none =>
    match f.recoverParse with
    | some es => (some es, 1)
    | none => (none, 1)

/-- Embedding of `process_cad` (`fileconverter.py`, lines 61-117): parse with
one recovery retry, convert the entities, and raise
`No valid geometries found` when no record was produced; otherwise return
the records (the rows of the resulting GeoDataFrame) and the warnings
logged along the way. -/
def process_cad (f : DxfFile) : Except CadError (List Record × List String) :=
  match (readDoc f).1 with
  | none => .error .structureError
  | some es =>
    let r := processEntities es
    if r.1.isEmpty then .error .noGeometries else .ok r

/-!  ### The per-layer variant: `convert_to_shp` in `test.py`

Here each entity is converted through `GeoProxy.from_dxf_entity` and kept
only when the result is an instance of `Point`, `LineString` or `Polygon`.
The conversion is modelled by its outcome: `.error` for a raised exception
(caught and turned into a warning), `.ok none` for a result that is not one
of the three accepted geometry classes, `.ok (some g)` for an accepted
geometry. -/

/-- Embedding of a model-space entity as read by `convert_to_shp`. -/
structure TEntity where
  layer : String
  geoResult : Except String (Option Geom)
deriving DecidableEq, Repr

/-- The geometry `convert_to_shp` keeps for an entity, if any: the converted
value when conversion succeeded and passed the `isinstance` filter. -/
def successGeom (e : TEntity) : Option Geom :=
  match e.geoResult with
  | .ok (some g) => some g
  | _ => none

/-- One iteration of the entity loop of `convert_to_shp` (`test.py`,
lines 22-33) over the layer dictionary, modelled as an association list in
insertion order: the entity's layer key is inserted if absent, then the
converted geometry is appended under it when it is an accepted geometry. -/
def addEntity (acc : List (String × List Geom)) (e : TEntity) :
    List (String × List Geom) :=
  let acc' := if acc.any (fun p => p.1 = e.layer) then acc else acc ++ [(e.layer, [])]
  match successGeom e with
  | some g => acc'.map fun p => if p.1 = e.layer then (p.1, p.2 ++ [g]) else p
  | none => acc'

/-- The `layers` dictionary built by the entity loop of `convert_to_shp`. -/
def buildLayers (es : List TEntity) : List (String × List Geom) :=
  es.foldl addEntity []

/-- The datasets `convert_to_shp` actually writes (`test.py`, lines 36-41):
one per layer, skipping layers whose geometry list is empty. -/
def outputDatasets (es : List TEntity) : List (String × List Geom) :=
  (buildLayers es).filter fun p => !p.2.isEmpty

/-- First-match lookup in an association list of layers, mirroring Python
dictionary indexing (keys are unique in any dictionary image). -/
def lookupLayer (L : String) : List (String × List Geom) → Option (List Geom)
  | [] => none
  | p :: rest => if p.1 = L then some p.2 else lookupLayer L rest

/-- The successfully converted geometries of the entities on layer `L`, in
input order: what `convert_to_shp` is expected to collect under `L`. -/
def layerSucc (es : List TEntity) (L : String) : List Geom :=
  (es.filter fun e => e.layer = L).filterMap successGeom

/-!  ### Derived predicates and concrete inputs used in the theorems -/

/-- The raw vertex-count floor a geometry of each type gets from the way the
scripts construct it: a line string is built from at least two vertices and a
polygon from at least three (not necessarily distinct). -/
def meetsVertexFloor : Geom → Bool
  | .point _ _ => true
  | .lineString ps => 2 ≤ ps.length
  | .polygon ps => 3 ≤ ps.length

/-- An entity none of whose modelled accesses succeeds; concrete entities
below override the fields their kind reads. -/
def baseEnt : DxfEntity where
  dxftype := "UNSUPPORTED"
  layer := "0"
  location := .error "DXFAttributeError"
  startP := .error "DXFAttributeError"
  endP := .error "DXFAttributeError"
  points := .error "AttributeError"
  center := .error "DXFAttributeError"
  radius := .error "DXFAttributeError"
  extraAttribs := []

/-- A well-formed POINT entity carrying one extra native attribute. -/
def ptEnt : DxfEntity :=
  { baseEnt with dxftype := "POINT", location := .ok (1, 2),
                 extraAttribs := [("color", "7")] }

/-- A well-formed LINE entity. -/
def lineEnt : DxfEntity :=
  { baseEnt with dxftype := "LINE", startP := .ok (0, 0), endP := .ok (3, 4) }

/-- A malformed POINT entity: accessing its location raises. -/
def badEnt : DxfEntity :=
  { baseEnt with dxftype := "POINT", location := .error "no location" }

/-- The vertex sequence of an open three-vertex polyline. -/
def pl3openPts : List Coord := [(0, 0), (1, 0), (1, 1)]

/-- An open three-vertex polyline: first vertex differs from the last. -/
def pl3open : DxfEntity :=
  { baseEnt with dxftype := "LWPOLYLINE", points := .ok pl3openPts }

/-- A two-vertex polyline. -/
def pl2ent : DxfEntity :=
  { baseEnt with dxftype := "LWPOLYLINE", points := .ok [(0, 0), (1, 0)] }

/-- A one-vertex polyline. -/
def pl1ent : DxfEntity :=
  { baseEnt with dxftype := "POLYLINE", points := .ok [(0, 0)] }

/-- The vertex sequence of a four-vertex polyline whose vertices coincide. -/
def pl4dupPts : List Coord := [(0, 0), (0, 0), (0, 0), (0, 0)]

/-- A four-vertex polyline all of whose vertices coincide. -/
def pl4dup : DxfEntity :=
  { baseEnt with dxftype := "LWPOLYLINE", points := .ok pl4dupPts }

/-- A CIRCLE entity of radius zero. -/
def circle0 : DxfEntity :=
  { baseEnt with dxftype := "CIRCLE", center := .ok (5, 5), radius := .ok 0 }

/-- An entity of a kind the dispatch does not support. -/
def unsupEnt : DxfEntity :=
  { baseEnt with dxftype := "TEXT" }

/-- A drawing file that parses strictly and contains only one unsupported
entity. -/
def fileUnsup : DxfFile where
  strictParse := some [unsupEnt]
  recoverParse := none

/-- A drawing file on which both the strict and the recovery parse fail. -/
def fileBothFail : DxfFile where
  strictParse := none
  recoverParse := none

/-- A drawing file whose strict parse fails and whose recovery parse yields
one POINT entity. -/
def fileRecovered : DxfFile where
  strictParse := none
  recoverParse := some [ptEnt]

/-- The data frame of the specification's CSV example: columns
`id,latitude,longitude` with the single row `1,40.7128,-74.0060`. -/
def csvExample : DataFrame where
  columns := ["id", "latitude", "longitude"]
  col := fun s =>
    if s = "latitude" then [40.7128]
    else if s = "longitude" then [-74.0060]
    else if s = "id" then [1]
    else []
  geomCol := []

/-- A data frame with every recognized coordinate column set at once, to
exhibit the priority order. -/
def csvAllCols : DataFrame where
  columns := ["latitude", "longitude", "x", "y", "geometry"]
  col := fun s =>
    if s = "latitude" then [10]
    else if s = "longitude" then [20]
    else if s = "x" then [30]
    else if s = "y" then [40]
    else []
  geomCol := [.point 99 99]

/-- A data frame with no recognized coordinate column set. -/
def csvNoGeomCols : DataFrame where
  columns := ["id", "name"]
  col := fun _ => []
  geomCol := []

/-- A concrete model space for the per-layer variant: one accepted geometry
on layer A, one raising entity on layer B, one filtered-out conversion on
layer A. -/
def tEnts : List TEntity :=
  [⟨"A", .ok (some (.point 0 0))⟩, ⟨"B", .error "bad"⟩, ⟨"A", .ok none⟩]

/-!  ### Helper lemmas about the entity fold of `process_cad` -/

theorem stepEntity_split (acc : List Record × List String) (e : DxfEntity) :
    stepEntity acc e =
      (acc.1 ++ (stepEntity ([], []) e).1, acc.2 ++ (stepEntity ([], []) e).2) := by
  unfold stepEntity
  cases convertEntity e with
  | error msg => simp
  | ok og =>
    cases og with
    | none => simp
    | some g => by_cases hg : g.isEmpty <;> simp [hg]

theorem foldl_stepEntity (es : List DxfEntity) :
    ∀ acc, es.foldl stepEntity acc =
      (acc.1 ++ (processEntities es).1, acc.2 ++ (processEntities es).2) := by
  induction es with
  | nil => intro acc; simp [processEntities]
  | cons e es ih =>
    intro acc
    have hcons : processEntities (e :: es) =
        ((stepEntity ([], []) e).1 ++ (processEntities es).1,
         (stepEntity ([], []) e).2 ++ (processEntities es).2) := by
      show (e :: es).foldl stepEntity ([], []) = _
      rw [List.foldl_cons, ih (stepEntity ([], []) e)]
    rw [List.foldl_cons, ih (stepEntity acc e), hcons, stepEntity_split acc e]
    simp

theorem processEntities_append (xs ys : List DxfEntity) :
    processEntities (xs ++ ys) =
      ((processEntities xs).1 ++ (processEntities ys).1,
       (processEntities xs).2 ++ (processEntities ys).2) := by
  show (xs ++ ys).foldl stepEntity ([], []) = _
  rw [List.foldl_append, foldl_stepEntity ys]
  rfl

theorem processEntities_singleton (e : DxfEntity) :
    processEntities [e] = stepEntity ([], []) e := rfl

theorem mem_processEntities {es : List DxfEntity} {r : Record}
    (hr : r ∈ (processEntities es).1) :
    ∃ e, e ∈ es ∧ ∃ g, convertEntity e = .ok (some g) ∧ g.isEmpty = false ∧
      r = ⟨g, ("dxftype", e.dxftype) :: allExistingDxfAttribs e⟩ := by
  induction es with
  | nil => simp [processEntities] at hr
  | cons e es ih =>
    rw [show e :: es = [e] ++ es from rfl, processEntities_append] at hr
    rcases List.mem_append.mp hr with h | h
    · rw [processEntities_singleton] at h
      rcases hce : convertEntity e with msg | og
      · simp [stepEntity, hce] at h
      · cases og with
        | none => simp [stepEntity, hce] at h
        | some g =>
          by_cases hg : g.isEmpty
          · simp [stepEntity, hce, hg] at h
          · simp [stepEntity, hce, hg] at h
            exact ⟨e, by simp, g, hce, by simp [hg], h⟩
    · rcases ih h with ⟨e', he', hrest⟩
      exact ⟨e', by simp [he'], hrest⟩

theorem processEntities_of_all_none {es : List DxfEntity}
    (h : ∀ e ∈ es, convertEntity e = .ok none) : processEntities es = ([], []) := by
  induction es with
  | nil => rfl
  | cons e es ih =>
    have h1 : processEntities [e] = ([], []) := by
      rw [processEntities_singleton]
      simp [stepEntity, h e (by simp)]
    rw [show e :: es = [e] ++ es from rfl, processEntities_append, h1,
        ih fun e' he' => h e' (by simp [he'])]
    rfl

theorem convertEntity_shape {e : DxfEntity} {g : Geom}
    (hc : convertEntity e = .ok (some g)) (hg : g.isEmpty = false) :
    meetsVertexFloor g = true := by
  unfold convertEntity at hc
  split_ifs at hc with h1 h2 h3 h4
  · rcases hl : e.location with m | l <;>
      simp [hl, Bind.bind, Except.bind, Pure.pure, Except.pure] at hc
    subst hc; rfl
  · rcases hs : e.startP with m | s <;>
      rcases ht : e.endP with m' | t <;>
        simp [hs, ht, Bind.bind, Except.bind, Pure.pure, Except.pure] at hc
    subst hc; rfl
  · rcases hp : e.points with m | ps <;>
      simp [hp, Bind.bind, Except.bind, Pure.pure, Except.pure] at hc
    split_ifs at hc with hlen hlen2 <;>
      simp [Pure.pure, Except.pure] at hc
    · subst hc; simp [meetsVertexFloor]; omega
    · subst hc; simp [meetsVertexFloor]; omega
  · rcases hcn : e.center with m | c <;>
      rcases hr : e.radius with m' | r <;>
        simp [hcn, hr, Bind.bind, Except.bind, Pure.pure, Except.pure] at hc
    subst hc
    unfold buffer at hg ⊢
    split_ifs at hg ⊢ with hrpos
    · simp [meetsVertexFloor, circleRing]
    · simp [Geom.isEmpty] at hg
  · simp [Pure.pure, Except.pure] at hc

/-!  ### Helper lemmas about the layer dictionary of `convert_to_shp` -/

theorem lookupLayer_append_of_none {L : String} {a : List (String × List Geom)}
    (b : List (String × List Geom)) (h : lookupLayer L a = none) :
    lookupLayer L (a ++ b) = lookupLayer L b := by
  induction a with
  | nil => rfl
  | cons q a ih =>
    rw [lookupLayer] at h
    by_cases hq : q.1 = L
    · simp [hq] at h
    · rw [List.cons_append, lookupLayer, if_neg hq]
      exact ih (by rwa [if_neg hq] at h)

theorem lookupLayer_append_of_some {L : String} {a : List (String × List Geom)}
    {v : List Geom} (b : List (String × List Geom)) (h : lookupLayer L a = some v) :
    lookupLayer L (a ++ b) = some v := by
  induction a with
  | nil => simp [lookupLayer] at h
  | cons q a ih =>
    rw [lookupLayer] at h
    by_cases hq : q.1 = L
    · rw [if_pos hq] at h
      rw [List.cons_append, lookupLayer, if_pos hq]
      exact h
    · rw [if_neg hq] at h
      rw [List.cons_append, lookupLayer, if_neg hq]
      exact ih h

theorem lookupLayer_none_iff_any {L : String} {acc : List (String × List Geom)} :
    lookupLayer L acc = none ↔ acc.any (fun p => p.1 = L) = false := by
  induction acc with
  | nil => simp [lookupLayer]
  | cons q acc ih =>
    rw [lookupLayer]
    by_cases hq : q.1 = L <;> simp [hq, ih]

theorem lookupLayer_map_update (L K : String) (g : Geom)
    (acc : List (String × List Geom)) :
    lookupLayer L (acc.map fun p => if p.1 = K then (p.1, p.2 ++ [g]) else p) =
      if L = K then (lookupLayer L acc).map (fun v => v ++ [g])
      else lookupLayer L acc := by
  induction acc with
  | nil => by_cases h : L = K <;> simp [h, lookupLayer]
  | cons q acc ih =>
    rw [List.map_cons]
    by_cases hqK : q.1 = K <;> by_cases hqL : q.1 = L
    · have hLK : L = K := hqL.symm.trans hqK
      simp [lookupLayer, hqK, hqL, hLK]
    · have hLK : ¬ L = K := fun h => hqL (hqK.trans h.symm)
      have hKL : ¬ K = L := fun h => hLK h.symm
      simp [lookupLayer, hqK, hqL, hLK, hKL, ih]
    · have hLK : ¬ L = K := fun h => hqK (hqL.trans h)
      simp [lookupLayer, hqK, hqL, hLK]
    · simp [lookupLayer, hqK, hqL, ih]

theorem lookupLayer_addEntity (acc : List (String × List Geom)) (e : TEntity) (L : String) :
    lookupLayer L (addEntity acc e) =
      if e.layer = L then
        some ((lookupLayer L acc).getD [] ++ (successGeom e).toList)
      else lookupLayer L acc := by
  unfold addEntity
  cases hany : acc.any (fun p => p.1 = e.layer) with
  | true =>
    obtain ⟨w, hw⟩ : ∃ w, lookupLayer e.layer acc = some w := by
      cases h : lookupLayer e.layer acc with
      | none => exact absurd hany (by simp [lookupLayer_none_iff_any.mp h])
      | some w => exact ⟨w, rfl⟩
    cases hsg : successGeom e with
    | some g =>
      simp only [hany, if_true]
      rw [lookupLayer_map_update]
      by_cases hL : e.layer = L
      · subst hL
        rw [if_pos rfl, if_pos rfl, hw]
        simp
      · rw [if_neg (fun h => hL h.symm), if_neg hL]
    | none =>
      simp only [hany, if_true]
      by_cases hL : e.layer = L
      · subst hL; rw [if_pos rfl, hw]; simp
      · rw [if_neg hL]
  | false =>
    have hnone : lookupLayer e.layer acc = none := lookupLayer_none_iff_any.mpr hany
    have haccL : ∀ M, lookupLayer M (acc ++ [(e.layer, [])]) =
        if e.layer = M then some ((lookupLayer M acc).getD []) else lookupLayer M acc := by
      intro M
      by_cases hM : e.layer = M
      · subst hM
        rw [lookupLayer_append_of_none _ hnone, if_pos rfl, hnone]
        simp [lookupLayer]
      · cases hMl : lookupLayer M acc with
        | none =>
          rw [lookupLayer_append_of_none _ hMl, if_neg hM]
          simp [lookupLayer, hM, hMl]
        | some v => rw [lookupLayer_append_of_some _ hMl, if_neg hM]
    cases hsg : successGeom e with
    | some g =>
      simp only [hany, Bool.false_eq_true, if_false]
      rw [lookupLayer_map_update]
      by_cases hL : e.layer = L
      · subst hL
        rw [if_pos rfl, if_pos rfl, haccL e.layer, if_pos rfl, hnone]
        simp
      · rw [if_neg (fun h => hL h.symm), if_neg hL, haccL L, if_neg hL]
    | none =>
      simp only [hany, Bool.false_eq_true, if_false]
      rw [haccL L]
      by_cases hL : e.layer = L
      · rw [if_pos hL, if_pos hL]; simp
      · rw [if_neg hL, if_neg hL]

theorem lookupLayer_foldl (es : List TEntity) :
    ∀ (acc : List (String × List Geom)) (L : String),
      lookupLayer L (es.foldl addEntity acc) =
        match lookupLayer L acc with
        | some gs => some (gs ++ layerSucc es L)
        | none =>
          if es.any (fun e => e.layer = L) then some (layerSucc es L) else none := by
  induction es with
  | nil =>
    intro acc L
    cases h : lookupLayer L acc <;> simp [layerSucc, h]
  | cons e es ih =>
    intro acc L
    rw [List.foldl_cons, ih (addEntity acc e) L, lookupLayer_addEntity]
    by_cases hL : e.layer = L
    · rw [if_pos hL]
      have hfilter : layerSucc (e :: es) L = (successGeom e).toList ++ layerSucc es L := by
        simp only [layerSucc, List.filter_cons, hL, decide_True, if_true]
        cases hsg : successGeom e <;> simp [List.filterMap_cons, hsg]
      have hany : (e :: es).any (fun x => x.layer = L) = true := by simp [hL]
      cases h : lookupLayer L acc <;> simp [h, hfilter, hany]
    · rw [if_neg hL]
      have hfilter : layerSucc (e :: es) L = layerSucc es L := by
        simp [layerSucc, List.filter_cons, hL]
      have hany : (e :: es).any (fun x => x.layer = L) = es.any (fun x => x.layer = L) := by
        simp [hL]
      cases h : lookupLayer L acc <;> simp [h, hfilter, hany]

theorem lookupLayer_buildLayers (es : List TEntity) (L : String) :
    lookupLayer L (buildLayers es) =
      if es.any (fun e => e.layer = L) then some (layerSucc es L) else none := by
  have h := lookupLayer_foldl es [] L
  simpa [buildLayers, lookupLayer] using h

theorem keys_map_update (K : String) (g : Geom) (acc : List (String × List Geom)) :
    ((acc.map fun p => if p.1 = K then (p.1, p.2 ++ [g]) else p).map Prod.fst) =
      acc.map Prod.fst := by
  induction acc with
  | nil => rfl
  | cons p acc ih => by_cases h : p.1 = K <;> simp [h, ih]

theorem keys_addEntity (acc : List (String × List Geom)) (e : TEntity) :
    (addEntity acc e).map Prod.fst =
      if acc.any (fun p => p.1 = e.layer) then acc.map Prod.fst
      else acc.map Prod.fst ++ [e.layer] := by
  unfold addEntity
  cases hany : acc.any (fun p => p.1 = e.layer) <;>
    cases hsg : successGeom e <;>
      (simp [hany, hsg, keys_map_update]
       try (intro a b _h; split <;> rfl))

theorem nodupKeys_addEntity {acc : List (String × List Geom)} (e : TEntity)
    (h : (acc.map Prod.fst).Nodup) : ((addEntity acc e).map Prod.fst).Nodup := by
  rw [keys_addEntity]
  cases hany : acc.any (fun p => p.1 = e.layer) with
  | true => simpa using h
  | false =>
    have hmem : e.layer ∉ acc.map Prod.fst := by
      intro hm
      rcases List.mem_map.mp hm with ⟨p, hp, hpe⟩
      have h2 := List.any_eq_false.mp hany p hp
      simp only [decide_eq_true_eq] at h2
      exact h2 hpe
    simp [List.nodup_append, hmem, h]

theorem nodupKeys_buildLayers (es : List TEntity) :
    ((buildLayers es).map Prod.fst).Nodup := by
  have haux : ∀ acc, (acc.map Prod.fst).Nodup →
      ((es.foldl addEntity acc).map Prod.fst).Nodup := by
    induction es with
    | nil => intro acc h; exact h
    | cons e es ih =>
      intro acc h
      rw [List.foldl_cons]
      exact ih _ (nodupKeys_addEntity e h)
  exact haux [] (by simp)

theorem lookupLayer_eq_none {l : List (String × List Geom)} {L : String}
    (h : L ∉ l.map Prod.fst) : lookupLayer L l = none := by
  induction l with
  | nil => rfl
  | cons q l ih =>
    rw [List.map_cons, List.mem_cons] at h
    push_neg at h
    rw [lookupLayer, if_neg (fun hh => h.1 hh.symm)]
    exact ih h.2

theorem lookupLayer_of_mem {l : List (String × List Geom)}
    (hnd : (l.map Prod.fst).Nodup) {p : String × List Geom} (hp : p ∈ l) :
    lookupLayer p.1 l = some p.2 := by
  induction l with
  | nil => simp at hp
  | cons q l ih =>
    rw [List.map_cons, List.nodup_cons] at hnd
    rcases List.mem_cons.mp hp with rfl | hp'
    · rw [lookupLayer, if_pos rfl]
    · have hq : ¬ q.1 = p.1 := by
        intro hh
        exact hnd.1 (hh ▸ List.mem_map.mpr ⟨p, hp', rfl⟩)
      rw [lookupLayer, if_neg hq]
      exact ih hnd.2 hp'

theorem mem_of_lookupLayer {l : List (String × List Geom)} {L : String} {v : List Geom}
    (h : lookupLayer L l = some v) : (L, v) ∈ l := by
  induction l with
  | nil => simp [lookupLayer] at h
  | cons q l ih =>
    rw [lookupLayer] at h
    by_cases hq : q.1 = L
    · rw [if_pos hq] at h
      injection h with h
      obtain ⟨a, b⟩ := q
      cases hq
      cases h
      exact List.mem_cons_self _ _
    · rw [if_neg hq] at h
      exact List.mem_cons_of_mem _ (ih h)

theorem lookupLayer_filter_none {l : List (String × List Geom)} {L : String}
    (p : String × List Geom → Bool) (h : lookupLayer L l = none) :
    lookupLayer L (l.filter p) = none := by
  induction l with
  | nil => rfl
  | cons q l ih =>
    rw [lookupLayer] at h
    by_cases hq : q.1 = L
    · rw [if_pos hq] at h; cases h
    · rw [if_neg hq] at h
      rw [List.filter_cons]
      cases hp : p q <;> simp [lookupLayer, hq, ih h]

theorem lookupLayer_filter {l : List (String × List Geom)}
    (hnd : (l.map Prod.fst).Nodup) (p : String × List Geom → Bool) (L : String) :
    lookupLayer L (l.filter p) =
      match lookupLayer L l with
      | some v => if p (L, v) then some v else none
      | none => none := by
  induction l with
  | nil => rfl
  | cons q l ih =>
    rw [List.map_cons, List.nodup_cons] at hnd
    by_cases hq : q.1 = L
    · have hlt : lookupLayer L l = none := lookupLayer_eq_none (hq ▸ hnd.1)
      rw [List.filter_cons]
      cases hp : p q with
      | true =>
        simp only [hp, if_true]
        rw [lookupLayer, if_pos hq, lookupLayer, if_pos hq]
        obtain ⟨a, b⟩ := q
        cases hq
        simp [hp]
      | false =>
        simp only [hp, Bool.false_eq_true, if_false]
        rw [lookupLayer_filter_none p hlt, lookupLayer, if_pos hq]
        obtain ⟨a, b⟩ := q
        cases hq
        simp [hp]
    · rw [List.filter_cons]
      have htail : lookupLayer L (q :: l) = lookupLayer L l := by
        rw [lookupLayer, if_neg hq]
      cases hp : p q with
      | true =>
        simp only [hp, if_true]
        rw [lookupLayer, if_neg hq, htail]
        exact ih hnd.2
      | false =>
        simp only [hp, Bool.false_eq_true, if_false]
        rw [htail]
        exact ih hnd.2

theorem any_of_layerSucc_ne_nil {es : List TEntity} {L : String}
    (h : layerSucc es L ≠ []) : es.any (fun e => e.layer = L) = true := by
  by_contra hany
  apply h
  have hfalse : es.any (fun e => e.layer = L) = false := by
    cases hh : es.any (fun e => e.layer = L)
    · rfl
    · exact absurd hh hany
  have hfil : es.filter (fun e => e.layer = L) = [] := by
    rw [List.filter_eq_nil_iff]
    intro e he
    exact List.any_eq_false.mp hfalse e he
  simp [layerSucc, hfil]

/-!  ### The claims -/

/-- C1 (amended): for every polyline Drawing Entity whose vertices are
readable, a vertex count greater than 2 yields a Polygon over the vertex
sequence regardless of the closed flag (so in particular for a closed ring),
a vertex count of exactly 2 yields a LineString over the vertex sequence,
and a vertex count below 2 yields no geometry and no error. -/
theorem C1_polyline_mapping (e : DxfEntity) (ps : List Coord)
    (hk : e.dxftype = "LWPOLYLINE" ∨ e.dxftype = "POLYLINE")
    (hps : e.points = .ok ps) :
    (2 < ps.length → convertEntity e = .ok (some (.polygon ps))) ∧
    (ps.length = 2 → convertEntity e = .ok (some (.lineString ps))) ∧
    (ps.length < 2 → convertEntity e = .ok none ∧ processEntities [e] = ([], [])) := by
  have hnp : ¬ e.dxftype = "POINT" := by rcases hk with h | h <;> rw [h] <;> decide
  have hnl : ¬ e.dxftype = "LINE" := by rcases hk with h | h <;> rw [h] <;> decide
  have hmain : convertEntity e =
      (if ps.length > 2 then pure (some (.polygon ps))
       else if ps.length = 2 then pure (some (.lineString ps))
       else pure none) := by
    unfold convertEntity
    rw [if_neg hnp, if_neg hnl, if_pos hk, hps]
    rfl
  refine ⟨fun h => ?_, fun h => ?_, fun h => ?_⟩
  · rw [hmain, if_pos h]; rfl
  · have h2 : ¬ ps.length > 2 := by omega
    rw [hmain, if_neg h2, if_pos h]; rfl
  · have h2 : ¬ ps.length > 2 := by omega
    have h3 : ¬ ps.length = 2 := by omega
    have hce : convertEntity e = .ok none := by
      rw [hmain, if_neg h2, if_neg h3]; rfl
    exact ⟨hce, by rw [processEntities_singleton]; simp [stepEntity, hce]⟩

/-- C1 witness: the three vertex-count regimes at concrete polylines. -/
theorem C1_polyline_mapping_witness :
    convertEntity pl3open = .ok (some (.polygon pl3openPts)) ∧
    convertEntity pl2ent = .ok (some (.lineString [(0, 0), (1, 0)])) ∧
    convertEntity pl1ent = .ok none ∧ processEntities [pl1ent] = ([], []) :=
  ⟨(C1_polyline_mapping pl3open pl3openPts (Or.inl rfl) rfl).1 (by decide),
   (C1_polyline_mapping pl2ent [(0, 0), (1, 0)] (Or.inl rfl) rfl).2.1 (by decide),
   ((C1_polyline_mapping pl1ent [(0, 0)] (Or.inr rfl) rfl).2.2 (by decide)).1,
   ((C1_polyline_mapping pl1ent [(0, 0)] (Or.inr rfl) rfl).2.2 (by decide)).2⟩

/-- C1 counterexample: `pl3open` is an open polyline (its first vertex
differs from its last) with 3 ≥ 2 vertices, yet `process_cad` maps it to a
Polygon, not to the LineString the claim requires for any not-closed
polyline: the code never consults the closed flag and turns every polyline
with more than two vertices into a Polygon. -/
theorem C1_counterexample :
    pl3open.points = .ok pl3openPts ∧
    2 ≤ pl3openPts.length ∧
    pl3openPts.head? ≠ pl3openPts.getLast? ∧
    convertEntity pl3open = .ok (some (.polygon pl3openPts)) ∧
    convertEntity pl3open ≠ .ok (some (.lineString pl3openPts)) := by
  decide

/-- C2: when the parsed drawing yields no record at all, `process_cad`
raises the distinct terminal `No valid geometries found` error; after a
successful parse this is the only whole-request failure, and it is
distinguishable from the structural parse error.  In particular a model
space consisting solely of unsupported entity kinds produces it. -/
theorem C2_empty_result_error (f : DxfFile) (es : List DxfEntity)
    (hparse : (readDoc f).1 = some es) :
    ((processEntities es).1 = [] ↔ process_cad f = .error .noGeometries) ∧
    (∀ err, process_cad f = .error err → err = .noGeometries) ∧
    ((∀ e ∈ es, convertEntity e = .ok none) → process_cad f = .error .noGeometries) ∧
    CadError.noGeometries ≠ CadError.structureError := by
  have hpc : process_cad f =
      (if (processEntities es).1.isEmpty then .error .noGeometries
       else .ok (processEntities es)) := by
    unfold process_cad
    rw [hparse]
  refine ⟨⟨fun h => ?_, fun h => ?_⟩, fun err herr => ?_, fun hall => ?_, by decide⟩
  · rw [hpc]; simp [h]
  · rw [hpc] at h
    cases hl : (processEntities es).1 with
    | nil => rfl
    | cons a t => rw [hl] at h; simp at h
  · rw [hpc] at herr
    by_cases hl : (processEntities es).1.isEmpty
    · rw [if_pos hl] at herr
      injection herr with h
      exact h.symm
    · rw [if_neg hl] at herr
      simp at herr
  · rw [hpc, processEntities_of_all_none hall]
    simp

/-- C2 witness: a file whose single entity is of an unsupported kind ends in
the no-geometries error. -/
theorem C2_empty_result_error_witness :
    process_cad fileUnsup = .error .noGeometries :=
  (C2_empty_result_error fileUnsup [unsupEnt] rfl).2.2.1 (by decide)

/-- C3: an entity whose conversion raises is skipped with exactly one
recorded warning; every record of the surrounding entities is still
produced, in order, and the batch is never aborted. -/
theorem C3_bad_entity_skipped (as : List DxfEntity) (e : DxfEntity)
    (bs : List DxfEntity) (msg : String) (hbad : convertEntity e = .error msg) :
    (processEntities (as ++ e :: bs)).1 =
      (processEntities as).1 ++ (processEntities bs).1 ∧
    (processEntities (as ++ e :: bs)).2 =
      (processEntities as).2 ++ entityWarning e msg :: (processEntities bs).2 := by
  have h1 : processEntities [e] = ([], [entityWarning e msg]) := by
    rw [processEntities_singleton]
    simp [stepEntity, hbad]
  have h2 : as ++ e :: bs = as ++ [e] ++ bs := by simp
  rw [h2, processEntities_append, processEntities_append, h1]
  simp

/-- C3 witness: a malformed POINT entity between two valid entities is
skipped with a warning while both neighbours are converted. -/
theorem C3_bad_entity_skipped_witness :
    (processEntities [ptEnt, badEnt, lineEnt]).1 =
      (processEntities [ptEnt]).1 ++ (processEntities [lineEnt]).1 ∧
    (processEntities [ptEnt, badEnt, lineEnt]).2 =
      (processEntities [ptEnt]).2 ++
        entityWarning badEnt "no location" :: (processEntities [lineEnt]).2 :=
  C3_bad_entity_skipped [ptEnt] badEnt [lineEnt] "no location" (by decide)

/-- C4: `process_csv` checks the geometry source columns in the fixed
priority order latitude/longitude, then x/y, then a pre-built geometry
column, and fails fast with the schema `ValueError` — producing no record —
when none of the three column sets is present. -/
theorem C4_csv_priority (df : DataFrame) :
    ("latitude" ∈ df.columns ∧ "longitude" ∈ df.columns →
      process_csv df = .ok (lonlatPoints df)) ∧
    (¬("latitude" ∈ df.columns ∧ "longitude" ∈ df.columns) →
      "x" ∈ df.columns ∧ "y" ∈ df.columns →
      process_csv df = .ok (xyPoints df)) ∧
    (¬("latitude" ∈ df.columns ∧ "longitude" ∈ df.columns) →
      ¬("x" ∈ df.columns ∧ "y" ∈ df.columns) →
      "geometry" ∈ df.columns →
      process_csv df = .ok df.geomCol) ∧
    (¬("latitude" ∈ df.columns ∧ "longitude" ∈ df.columns) →
      ¬("x" ∈ df.columns ∧ "y" ∈ df.columns) →
      "geometry" ∉ df.columns →
      process_csv df = .error csvSchemaErrorMsg) := by
  unfold process_csv
  exact ⟨fun h => by rw [if_pos h],
         fun h1 h2 => by rw [if_neg h1, if_pos h2],
         fun h1 h2 h3 => by rw [if_neg h1, if_neg h2, if_pos h3],
         fun h1 h2 h3 => by rw [if_neg h1, if_neg h2, if_neg h3]⟩

/-- C4 witness: with every recognized column set present the
latitude/longitude pair wins, and with none present the schema error is
raised. -/
theorem C4_csv_priority_witness :
    process_csv csvAllCols = .ok (lonlatPoints csvAllCols) ∧
    process_csv csvNoGeomCols = .error csvSchemaErrorMsg :=
  ⟨(C4_csv_priority csvAllCols).1 (by decide),
   (C4_csv_priority csvNoGeomCols).2.2.2 (by decide) (by decide) (by decide)⟩

/-- C5: when latitude and longitude columns are present, every row yields
exactly one Point record whose x coordinate is the row's longitude and whose
y coordinate is the row's latitude. -/
theorem C5_latlon_points (df : DataFrame)
    (hlat : "latitude" ∈ df.columns) (hlon : "longitude" ∈ df.columns) :
    process_csv df = .ok (lonlatPoints df) ∧
    (lonlatPoints df).length =
      min (df.col "longitude").length (df.col "latitude").length ∧
    ∀ (i : Nat) (x y : Rat),
      (df.col "longitude")[i]? = some x → (df.col "latitude")[i]? = some y →
      (lonlatPoints df)[i]? = some (Geom.point x y) := by
  refine ⟨?_, ?_, ?_⟩
  · unfold process_csv
    rw [if_pos ⟨hlat, hlon⟩]
  · simp [lonlatPoints]
  · intro i x y hx hy
    have hz : ((df.col "longitude").zip (df.col "latitude"))[i]? = some (x, y) := by
      rw [List.getElem?_zip_eq_some]
      exact ⟨hx, hy⟩
    simp [lonlatPoints, List.getElem?_map, hz]

/-- C5 witness: the specification's example row `1,40.7128,-74.0060`
produces the single Point (-74.0060, 40.7128). -/
theorem C5_latlon_points_witness :
    process_csv csvExample = .ok (lonlatPoints csvExample) ∧
    (lonlatPoints csvExample)[0]? = some (.point (-74.0060) 40.7128) :=
  ⟨(C5_latlon_points csvExample (by decide) (by decide)).1,
   (C5_latlon_points csvExample (by decide) (by decide)).2.2 0 (-74.0060) 40.7128
     (by simp [csvExample]) (by simp [csvExample])⟩

/-- C6: a drawing whose strict parse fails gets exactly one lenient-recovery
re-parse; the request fails with the structural parse error exactly when
that recovery also fails, and a successful strict parse never triggers a
recovery attempt. -/
theorem C6_parse_recovery (f : DxfFile) :
    (f.strictParse = none →
      (readDoc f).2 = 1 ∧
      (f.recoverParse = none → process_cad f = .error .structureError) ∧
      (∀ es, f.recoverParse = some es →
        (readDoc f).1 = some es ∧ process_cad f ≠ .error .structureError)) ∧
    (∀ es, f.strictParse = some es → (readDoc f).2 = 0) := by
  constructor
  · intro hs
    have hrd : readDoc f =
        (match f.recoverParse with
         | some es => (some es, 1)
         | none => (none, 1)) := by
      unfold readDoc
      rw [hs]
    refine ⟨?_, ?_, ?_⟩
    · rw [hrd]; cases f.recoverParse <;> rfl
    · intro hr
      have h1 : (readDoc f).1 = none := by rw [hrd, hr]
      unfold process_cad
      rw [h1]
    · intro es hr
      have h1 : (readDoc f).1 = some es := by rw [hrd, hr]
      refine ⟨h1, ?_⟩
      have hpc : process_cad f =
          (if (processEntities es).1.isEmpty then .error .noGeometries
           else .ok (processEntities es)) := by
        unfold process_cad
        rw [h1]
      rw [hpc]
      by_cases he : (processEntities es).1.isEmpty
      · rw [if_pos he]; decide
      · rw [if_neg he]; simp
  · intro es hs
    unfold readDoc
    rw [hs]

/-- C6 witness: both parses failing is fatal with the structural error, and
a succeeding recovery parse averts it. -/
theorem C6_parse_recovery_witness :
    ((readDoc fileBothFail).2 = 1 ∧
     process_cad fileBothFail = .error .structureError) ∧
    (readDoc fileRecovered).1 = some [ptEnt] ∧
    process_cad fileRecovered ≠ .error .structureError :=
  ⟨⟨((C6_parse_recovery fileBothFail).1 rfl).1,
    ((C6_parse_recovery fileBothFail).1 rfl).2.1 rfl⟩,
   ((C6_parse_recovery fileRecovered).1 rfl).2.2 [ptEnt] rfl⟩

/-- C7: the datasets `convert_to_shp` writes group the converted geometries
by the source entity's layer key (each written layer carries exactly the
successfully converted geometries of its entities, in input order), and a
layer with no successfully converted geometry is never written. -/
theorem C7_layer_grouping (es : List TEntity) :
    (∀ p ∈ outputDatasets es, p.2 ≠ [] ∧ p.2 = layerSucc es p.1) ∧
    (∀ L, layerSucc es L ≠ [] → (L, layerSucc es L) ∈ outputDatasets es) := by
  have hnd := nodupKeys_buildLayers es
  constructor
  · intro p hp
    unfold outputDatasets at hp
    have hpB : p ∈ buildLayers es := List.mem_of_mem_filter hp
    have hkeep := List.of_mem_filter hp
    have hne : p.2 ≠ [] := by simpa using hkeep
    refine ⟨hne, ?_⟩
    have hlk := lookupLayer_of_mem hnd hpB
    rw [lookupLayer_buildLayers] at hlk
    by_cases hany : es.any (fun e => e.layer = p.1) = true
    · rw [if_pos hany] at hlk
      injection hlk with h
      exact h.symm
    · rw [if_neg hany] at hlk
      cases hlk
  · intro L hLne
    have hany := any_of_layerSucc_ne_nil hLne
    have hlk : lookupLayer L (buildLayers es) = some (layerSucc es L) := by
      rw [lookupLayer_buildLayers, if_pos hany]
    unfold outputDatasets
    refine List.mem_filter.mpr ⟨mem_of_lookupLayer hlk, ?_⟩
    simpa using hLne

/-- C7 witness: with one accepted geometry on layer A, a raising entity on
layer B and a filtered-out conversion on layer A, only layer A is written
and it carries exactly the accepted geometry. -/
theorem C7_layer_grouping_witness :
    (("A", [Geom.point 0 0]).2 ≠ [] ∧
     ("A", [Geom.point 0 0]).2 = layerSucc tEnts "A") ∧
    ("A", layerSucc tEnts "A") ∈ outputDatasets tEnts :=
  ⟨(C7_layer_grouping tEnts).1 ("A", [Geom.point 0 0]) (by decide),
   (C7_layer_grouping tEnts).2 "A" (by decide)⟩

/-- C8: every entity that yields a geometry contributes a record whose
properties are exactly the `dxftype` kind field followed by every existing
native DXF attribute rendered as a string — in particular the kind, the
layer and all extra native fields are present in the record's attributes. -/
theorem C8_attribute_propagation (as : List DxfEntity) (e : DxfEntity)
    (bs : List DxfEntity) (g : Geom)
    (hc : convertEntity e = .ok (some g)) (hg : g.isEmpty = false) :
    ∃ r, r ∈ (processEntities (as ++ e :: bs)).1 ∧ r.geometry = g ∧
      r.properties = ("dxftype", e.dxftype) :: allExistingDxfAttribs e ∧
      ("dxftype", e.dxftype) ∈ r.properties ∧
      ("layer", e.layer) ∈ r.properties ∧
      ∀ a ∈ e.extraAttribs, a ∈ r.properties := by
  refine ⟨⟨g, ("dxftype", e.dxftype) :: allExistingDxfAttribs e⟩, ?_, rfl, rfl, ?_, ?_, ?_⟩
  · have h2 : as ++ e :: bs = as ++ [e] ++ bs := by simp
    rw [h2, processEntities_append, processEntities_append]
    have h1 : (processEntities [e]).1 =
        [⟨g, ("dxftype", e.dxftype) :: allExistingDxfAttribs e⟩] := by
      rw [processEntities_singleton]
      simp [stepEntity, hc, hg]
    simp [h1]
  · exact List.mem_cons_self _ _
  · exact List.mem_cons_of_mem _ (List.mem_cons_self _ _)
  · intro a ha
    exact List.mem_cons_of_mem _ (List.mem_cons_of_mem _ ha)

/-- C8 witness: a POINT entity with one extra native attribute yields a
record carrying the kind field, the layer field and that attribute. -/
theorem C8_attribute_propagation_witness :
    ∃ r, r ∈ (processEntities [ptEnt]).1 ∧ r.geometry = Geom.point 1 2 ∧
      r.properties = ("dxftype", ptEnt.dxftype) :: allExistingDxfAttribs ptEnt ∧
      ("dxftype", ptEnt.dxftype) ∈ r.properties ∧
      ("layer", ptEnt.layer) ∈ r.properties ∧
      ∀ a ∈ ptEnt.extraAttribs, a ∈ r.properties :=
  C8_attribute_propagation [] ptEnt [] (Geom.point 1 2) (by decide) (by decide)

/-- C9 (amended): every record `process_cad` produces has a non-empty
geometry meeting the raw vertex-count floor of its type — a LineString is
built from at least two and a Polygon from at least three vertices — but
those vertices need not be distinct: any degenerate or zero-area ring a
more-than-two-vertex polyline produces is accepted as-is. -/
theorem C9_vertex_floor (es : List DxfEntity) (r : Record)
    (hr : r ∈ (processEntities es).1) :
    r.geometry.isEmpty = false ∧ meetsVertexFloor r.geometry = true := by
  rcases mem_processEntities hr with ⟨e, _he, g, hc, hg, rfl⟩
  exact ⟨hg, convertEntity_shape hc hg⟩

/-- C9 witness: the record of a POINT entity is non-empty and meets the
floor. -/
theorem C9_vertex_floor_witness :
    (Geom.point 1 2).isEmpty = false ∧ meetsVertexFloor (Geom.point 1 2) = true :=
  C9_vertex_floor [ptEnt]
    ⟨Geom.point 1 2, ("dxftype", "POINT") :: allExistingDxfAttribs ptEnt⟩ (by decide)

/-- C9 counterexample: a four-vertex polyline all of whose vertices coincide
yields a Polygon record with a single distinct vertex — fewer than the three
distinct vertices the claim demands — and, having four vertices, it is not
covered by the claim's three-vertex zero-area exception. -/
theorem C9_counterexample :
    (processEntities [pl4dup]).1 =
      [⟨.polygon pl4dupPts, [("dxftype", "LWPOLYLINE"), ("layer", "0")]⟩] ∧
    pl4dupPts.length = 4 ∧
    pl4dupPts.dedup.length = 1 ∧
    ¬ 3 ≤ pl4dupPts.dedup.length := by
  decide

/-- C10: a CIRCLE entity of radius zero is a supported kind whose buffered
geometry is empty, so the truthiness guard silently drops it: it yields no
record, no warning, and leaves the rest of the batch untouched. -/
theorem C10_zero_radius_circle (e : DxfEntity) (c : Coord)
    (hk : e.dxftype = "CIRCLE") (hc : e.center = .ok c) (hr : e.radius = .ok 0) :
    convertEntity e = .ok (some (Geom.polygon [])) ∧
    (Geom.polygon []).isEmpty = true ∧
    ∀ as bs, processEntities (as ++ e :: bs) = processEntities (as ++ bs) := by
  have hnp : ¬ e.dxftype = "POINT" := by rw [hk]; decide
  have hnl : ¬ e.dxftype = "LINE" := by rw [hk]; decide
  have hnpl : ¬ (e.dxftype = "LWPOLYLINE" ∨ e.dxftype = "POLYLINE") := by
    rw [hk]; decide
  have hce : convertEntity e = .ok (some (Geom.polygon [])) := by
    unfold convertEntity
    rw [if_neg hnp, if_neg hnl, if_neg hnpl, if_pos hk, hc, hr]
    show Except.ok (some (buffer c 0)) = _
    rw [buffer, if_neg (lt_irrefl 0)]
  refine ⟨hce, rfl, fun as bs => ?_⟩
  have h1 : processEntities [e] = ([], []) := by
    rw [processEntities_singleton]
    simp [stepEntity, hce, Geom.isEmpty]
  have h2 : as ++ e :: bs = as ++ [e] ++ bs := by simp
  rw [h2, processEntities_append, processEntities_append, h1,
      processEntities_append]
  simp

/-- C10 witness: a concrete zero-radius circle between no other entities
contributes nothing. -/
theorem C10_zero_radius_circle_witness :
    convertEntity circle0 = .ok (some (Geom.polygon [])) ∧
    (Geom.polygon []).isEmpty = true ∧
    processEntities ([ptEnt] ++ circle0 :: []) = processEntities ([ptEnt] ++ []) :=
  ⟨(C10_zero_radius_circle circle0 (5, 5) rfl rfl rfl).1,
   (C10_zero_radius_circle circle0 (5, 5) rfl rfl rfl).2.1,
   (C10_zero_radius_circle circle0 (5, 5) rfl rfl rfl).2.2 [ptEnt] []⟩

end GIS
